import Mathlib

/-!
Verification of a small ls-style directory-listing utility (ls.py).

The program is shallowly embedded: every function of the source is
translated to a Lean definition over explicit state.  The ambient
filesystem (os.stat, os.path.islink, os.listdir, pwd/grp lookups,
os.getcwd, os.readlink, os.path.isfile / isdir) is modelled as an
immutable record of total/partial functions, Fs.  Fallible Python code
(operations that raise an uncaught exception such as TypeError on
len of a missing lookup result, or IndexError on indexing an empty
string) is modelled with Option: a none result means the run aborts at
that point.  Python 2 integers are modelled as Int where subtraction
matters and Nat elsewhere; Python 2 integer division on nonnegative
values is Nat division.
-/

namespace Ls

/-- Broken-down local time, as produced by time.localtime: full year,
month 1..12, day of month, hour, minute.  The source only ever reads
these five components. -/
structure Tm where
  tm_year : Nat
  tm_mon : Nat
  tm_mday : Nat
  tm_hour : Nat
  tm_min : Nat
deriving DecidableEq

/-- The metadata snapshot returned by os.stat for one path.  The access
time is kept already broken down, since the source immediately passes
st_atime through time.localtime. -/
structure PyStat where
  st_mode : Nat
  st_size : Nat
  st_nlink : Nat
  st_uid : Nat
  st_gid : Nat
  st_atime : Tm
deriving DecidableEq

/-- Classification of a path by the os.path.isfile / os.path.isdir
checks used in main. -/
inductive PathType where
  | file
  | dir
  | missing
deriving DecidableEq

/-- The ambient operating-system state consulted by the program: one
immutable snapshot of the filesystem and account databases.  userName,
groupName and readlink are partial (none models pwd.getpwuid KeyError,
grp.getgrgid KeyError and os.readlink OSError respectively).  curYear
is the year component of time.localtime() with no argument. -/
structure Fs where
  stat : String → PyStat
  islink : String → Bool
  listdir : String → List String
  userName : Nat → Option String
  groupName : Nat → Option String
  readlink : String → Option String
  cwd : String
  pathType : String → PathType
  curYear : Nat

/-- Python stat.S_ISDIR: the format bits of the mode equal S_IFDIR. -/
def S_ISDIR (m : Nat) : Bool := m &&& 0o170000 == 0o040000

/-- Python stat.S_ISLNK. -/
def S_ISLNK (m : Nat) : Bool := m &&& 0o170000 == 0o120000

/-- Python stat.S_ISREG. -/
def S_ISREG (m : Nat) : Bool := m &&& 0o170000 == 0o100000

/-- Python stat.S_ISBLK. -/
def S_ISBLK (m : Nat) : Bool := m &&& 0o170000 == 0o060000

/-- Python stat.S_ISCHR. -/
def S_ISCHR (m : Nat) : Bool := m &&& 0o170000 == 0o020000

/-- Python stat.S_ISFIFO. -/
def S_ISFIFO (m : Nat) : Bool := m &&& 0o170000 == 0o010000

/-- Python stat.S_ISSOCK. -/
def S_ISSOCK (m : Nat) : Bool := m &&& 0o170000 == 0o140000

/-- stat.S_ISUID. -/
def S_ISUID : Nat := 0o4000

/-- stat.S_ISGID. -/
def S_ISGID : Nat := 0o2000

/-- stat.S_ISVTX (sticky bit). -/
def S_ISVTX : Nat := 0o1000

/-- stat.S_IXUSR. -/
def S_IXUSR : Nat := 0o100

/-- stat.S_IXGRP. -/
def S_IXGRP : Nat := 0o010

/-- stat.S_IXOTH. -/
def S_IXOTH : Nat := 0o001

/-- Source is_symlink: wraps os.path.islink (the os.error branch of the
source is unreachable for os.path.islink, which returns False on
errors, so the wrapper is total). -/
def is_symlink (fs : Fs) (path : String) : Bool := fs.islink path

/-- Source File.get_type, as a function of the stat result and of the
is_symlink answer for directory + name.  Note the order: the directory
test on the stat mode runs before both symlink tests. -/
def get_type (st : PyStat) (islinkRes : Bool) : String :=
  if S_ISDIR st.st_mode then "d"
  else if S_ISLNK st.st_mode then "l"
  else if islinkRes then "l"
  else if S_ISREG st.st_mode then "-"
  else if S_ISBLK st.st_mode then "b"
  else if S_ISCHR st.st_mode then "c"
  else if S_ISFIFO st.st_mode then "p"
  else if S_ISSOCK st.st_mode then "s"
  else "?"

/-- One listed filesystem object: source class File.  stat is the
os.stat result fetched at construction for directory + name, islink the
os.path.islink answer for the same path (the filesystem snapshot is
immutable, so caching it is faithful to the source, which re-queries),
and type the File.get_type classification computed at construction. -/
structure File where
  name : String
  directory : String
  stat : PyStat
  islink : Bool
  type : String
deriving DecidableEq

/-- Source File.__init__(name, directory): fetch os.stat of
directory + name (File.get_stat) and classify (File.get_type). -/
def File.init (fs : Fs) (name directory : String) : File :=
  let st := fs.stat (directory ++ name)
  { name := name, directory := directory, stat := st,
    islink := is_symlink fs (directory ++ name),
    type := get_type st (is_symlink fs (directory ++ name)) }

/-- strftime month abbreviation table, %b. -/
def month_abbrev (m : Nat) : String :=
  match m with
  | 1 => "Jan" | 2 => "Feb" | 3 => "Mar" | 4 => "Apr"
  | 5 => "May" | 6 => "Jun" | 7 => "Jul" | 8 => "Aug"
  | 9 => "Sep" | 10 => "Oct" | 11 => "Nov" | 12 => "Dec"
  | _ => ""

/-- Zero-padded two-digit field, as used by strftime %d, %H and %M. -/
def pad2 (n : Nat) : String :=
  if n < 10 then "0" ++ Nat.repr n else Nat.repr n

/-- strftime "%b %d %H:%M" on a broken-down time. -/
def strftime_bdHM (t : Tm) : String :=
  month_abbrev t.tm_mon ++ " " ++ pad2 t.tm_mday ++ " " ++
    pad2 t.tm_hour ++ ":" ++ pad2 t.tm_min

/-- strftime "%b %d %Y" on a broken-down time (%Y with a four-digit or
larger year, the case produced by time.localtime). -/
def strftime_bdY (t : Tm) : String :=
  month_abbrev t.tm_mon ++ " " ++ pad2 t.tm_mday ++ " " ++ Nat.repr t.tm_year

/-- Source File.get_time: curYear is the current year taken from
time.localtime().  Entries whose access-time year is more than one
calendar year in the past get the month-day-clock form, all others the
month-day-year form. -/
def get_time (f : File) (curYear : Nat) : String :=
  if f.stat.st_atime.tm_year < curYear - 1 then strftime_bdHM f.stat.st_atime
  else strftime_bdY f.stat.st_atime

/-- Source File.get_size_str: str(self.stat.st_size). -/
def get_size_str (f : File) : String := toString f.stat.st_size

/-- Source File.get_size. -/
def get_size (f : File) : Nat := f.stat.st_size

/-- Source File.get_human_readable_size, as a function of the byte
size.  Python 2 division of nonnegative ints is truncating division. -/
def get_human_readable_size (size : Nat) : String :=
  let KB := 1024
  let MB := KB * 1024
  let GB := MB * 1024
  let TB := GB * 1024
  if size < KB then toString size
  else if size < MB then toString (size / KB) ++ "K"
  else if size < GB then toString (size / MB) ++ "M"
  else if size < TB then toString (size / GB) ++ "G"
  else toString (size / TB) ++ "T"

/-- Source File.get_link_count: str(self.stat.st_nlink). -/
def get_link_count (f : File) : String := toString f.stat.st_nlink

/-- Source File.get_user_name: pwd.getpwuid(uid).pw_name.  On KeyError
the source prints the message and falls off the end, returning None:
modelled as none. -/
def get_user_name (fs : Fs) (f : File) : Option String :=
  fs.userName f.stat.st_uid

/-- Source File.get_group_name: grp.getgrgid(gid).gr_name, None on
KeyError, modelled as none. -/
def get_group_name (fs : Fs) (f : File) : Option String :=
  fs.groupName f.stat.st_gid

/-- Source File.get_permissions_text.  The "l" test uses the cached
self.type; the final type glyph re-runs self.get_type(). -/
def get_permissions_text (f : File) : String :=
  if f.type = "l" then "lrwxrwxrwx"
  else
    let rwxList := ["---", "--x", "-w-", "-wx", "r--", "r-x", "rw-", "rwx"]
    let ownPerms := rwxList.getD ((f.stat.st_mode >>> 6) &&& 7) ""
    let grpPerms := rwxList.getD ((f.stat.st_mode >>> 3) &&& 7) ""
    let othPerms := rwxList.getD (f.stat.st_mode &&& 7) ""
    let ownPerms :=
      if f.stat.st_mode &&& S_ISUID ≠ 0 then
        if f.stat.st_mode &&& S_IXUSR ≠ 0 then ownPerms.take 2 ++ "s"
        else ownPerms.take 2 ++ "S"
      else ownPerms
    let grpPerms :=
      if f.stat.st_mode &&& S_ISGID ≠ 0 then
        if f.stat.st_mode &&& S_IXGRP ≠ 0 then grpPerms.take 2 ++ "s"
        else grpPerms.take 2 ++ "S"
      else grpPerms
    let othPerms :=
      if f.stat.st_mode &&& S_ISVTX ≠ 0 then
        if f.stat.st_mode &&& S_IXOTH ≠ 0 then othPerms.take 2 ++ "t"
        else othPerms.take 2 ++ "T"
      else othPerms
    get_type f.stat f.islink ++ ownPerms ++ grpPerms ++ othPerms

/-- The -a -F -h -l -S option flags (source: the dictOpts dictionary). -/
structure Options where
  a : Bool
  F : Bool
  h : Bool
  l : Bool
  S : Bool
deriving DecidableEq

/-- All five flags off: the default dictionary of main and of
FileList.__init__. -/
def defaultOptions : Options :=
  { a := false, F := false, h := false, l := false, S := false }

/-- Source class FileList.  maxGrpNameSize is the field written by
FileList.__init__; maxGroupNameSize is the attribute created
dynamically by the first set_max_group_name_size call (none while it
does not exist yet, in which state reading it would be an
AttributeError) and read by get_long_listing_format. -/
structure FileList where
  files : List File
  options : Options
  maxFileSize : Nat
  maxUserNameSize : Nat
  maxGrpNameSize : Nat
  maxHarLinkSize : Nat
  maxGroupNameSize : Option Nat
deriving DecidableEq

/-- Source FileList.__init__. -/
def FileList.init (options : Options) : FileList :=
  { files := [], options := options, maxFileSize := 0,
    maxUserNameSize := 0, maxGrpNameSize := 0, maxHarLinkSize := 0,
    maxGroupNameSize := none }

/-- The loop shared by the set_max_* methods over a total getter:
max = 0; for file in files: if len(g(file)) > max: max = len(g(file)). -/
def max_len_total (getter : File → String) (files : List File) : Nat :=
  files.foldl (fun m f => if (getter f).length > m then (getter f).length else m) 0

/-- The same loop over a fallible getter: when a lookup returns None
the Python len(None) raises TypeError, aborting the run (none). -/
def max_len_over (fs : Fs) (getter : Fs → File → Option String)
    (files : List File) : Option Nat :=
  files.foldlM
    (fun m f => (getter fs f).map (fun s => if s.length > m then s.length else m)) 0

/-- Source FileList.set_max_file_size (always on str(st_size), the raw
decimal form, even under -h). -/
def set_max_file_size (fl : FileList) : FileList :=
  { fl with maxFileSize := max_len_total get_size_str fl.files }

/-- Source FileList.set_max_user_name_size; aborts (none) when a uid
has no pwd entry. -/
def set_max_user_name_size (fs : Fs) (fl : FileList) : Option FileList :=
  (max_len_over fs get_user_name fl.files).map
    (fun m => { fl with maxUserNameSize := m })

/-- Source FileList.set_max_group_name_size; note that it assigns the
attribute maxGroupNameSize, not the maxGrpNameSize field initialised by
the constructor. -/
def set_max_group_name_size (fs : Fs) (fl : FileList) : Option FileList :=
  (max_len_over fs get_group_name fl.files).map
    (fun m => { fl with maxGroupNameSize := some m })

/-- Source FileList.set_max_hard_link_size. -/
def set_max_hard_link_size (fl : FileList) : FileList :=
  { fl with maxHarLinkSize := max_len_total get_link_count fl.files }

/-- Source FileList.set_maximums, in source order: file size, user
name, group name, hard-link count. -/
def set_maximums (fs : Fs) (fl : FileList) : Option FileList :=
  let fl := set_max_file_size fl
  (set_max_user_name_size fs fl).bind (fun fl =>
    (set_max_group_name_size fs fl).map (fun fl =>
      set_max_hard_link_size fl))

/-- Python list.sort with a key is a stable sort; a stable sort of a
list under a total preorder has a unique result, so the structurally
recursive insertion sort of Mathlib is an exact model of it.  Ordering
relation of sort_file_list_by_name: ascending key x.name. -/
def nameLe (a b : File) : Prop := a.name ≤ b.name

instance : DecidableRel nameLe := fun a b =>
  inferInstanceAs (Decidable (a.name ≤ b.name))

instance : IsTotal File nameLe := ⟨fun a b => le_total a.name b.name⟩

instance : IsTrans File nameLe := ⟨fun _ _ _ h h' => le_trans h h'⟩

/-- Ordering of sort_file_list_by_size: list.sort(key=get_size,
reverse=True), i.e. the stable sort that puts a before b when
size b ≤ size a. -/
def sizeGe (a b : File) : Prop := b.stat.st_size ≤ a.stat.st_size

instance : DecidableRel sizeGe := fun a b =>
  inferInstanceAs (Decidable (b.stat.st_size ≤ a.stat.st_size))

instance : IsTotal File sizeGe := ⟨fun a b => le_total b.stat.st_size a.stat.st_size⟩

instance : IsTrans File sizeGe := ⟨fun _ _ _ h h' => le_trans h' h⟩

/-- Source FileList.sort_file_list_by_name. -/
def sort_file_list_by_name (fl : FileList) : FileList :=
  { fl with files := fl.files.insertionSort nameLe }

/-- Source FileList.sort_file_list_by_size. -/
def sort_file_list_by_size (fl : FileList) : FileList :=
  { fl with files := fl.files.insertionSort sizeGe }

/-- The Python idiom of both add methods:
if path[-1] != "/": path = path + "/".  path[-1] on the empty string
would be an IndexError; callers guard by construction, and the add
methods below return none in that case. -/
def ensure_trailing_slash (path : String) : String :=
  if path.back = '/' then path else path ++ "/"

/-- Source module function list_dir: wraps os.listdir. -/
def list_dir (fs : Fs) (path : String) : List String := fs.listdir path

/-- Source FileList.add_files_from_path: list the directory, append
"." and "..", filter names starting with "." unless -a, construct a
File per surviving name, recompute the maxima and sort by name. -/
def add_files_from_path (fs : Fs) (path : String) (fl : FileList) :
    Option FileList :=
  if path = "" then none
  else
    let path := ensure_trailing_slash path
    let fileNames := list_dir fs path ++ [".", ".."]
    let kept := fileNames.filter
      (fun item => ! (item.front = '.' ∧ fl.options.a = false : Bool))
    let fl := { fl with files := fl.files ++ kept.map (fun item => File.init fs item path) }
    (set_maximums fs fl).map sort_file_list_by_name

/-- Source FileList.add_file(path, name): append File(name, path with a
trailing slash), recompute the maxima, sort by name. -/
def add_file (fs : Fs) (path name : String) (fl : FileList) : Option FileList :=
  if path = "" then none
  else
    let path := ensure_trailing_slash path
    let fl := { fl with files := fl.files ++ [File.init fs name path] }
    (set_maximums fs fl).map sort_file_list_by_name

/-- Source module function get_space_chars: numSpaces below one yields
the empty string, otherwise numSpaces spaces.  The argument is an Int
because callers subtract Python ints. -/
def get_space_chars (numSpaces : Int) : String :=
  if numSpaces < 1 then "" else String.mk (List.replicate numSpaces.toNat ' ')

/-- Source FileList.get_file_name: append "/" under -F for
directories; under -l resolve and append the symlink target, keeping
the bare name when os.readlink raises (the source prints the message
and leaves fileName unassigned). -/
def get_file_name (fs : Fs) (fl : FileList) (f : File) : String :=
  let fileName := f.name
  let fileName :=
    if fl.options.F = true ∧ get_type f.stat f.islink = "d" then fileName ++ "/"
    else fileName
  if get_type f.stat f.islink = "l" ∧ fl.options.l = true then
    match fs.readlink (f.directory ++ f.name) with
    | some target => fileName ++ " -> " ++ target
    | none => fileName
  else fileName

/-- Source FileList.get_normal_format. -/
def get_normal_format (fs : Fs) (fl : FileList) (f : File) : String :=
  get_file_name fs fl f

/-- Source FileList.get_long_listing_format.  none models the uncaught
TypeError raised when a user or group name lookup returned None (the
source concatenates the lookup result with a string), and the
AttributeError raised if maxGroupNameSize was never assigned. -/
def get_long_listing_format (fs : Fs) (fl : FileList) (f : File) :
    Option String :=
  let fileSize :=
    if fl.options.h then get_human_readable_size f.stat.st_size
    else get_size_str f
  let fileSize :=
    get_space_chars ((fl.maxFileSize : Int) - (fileSize.length : Int)) ++ fileSize
  (get_user_name fs f).bind (fun userName0 =>
    (get_group_name fs f).bind (fun groupName0 =>
      fl.maxGroupNameSize.bind (fun maxG =>
        let userName :=
          userName0 ++ get_space_chars ((fl.maxUserNameSize : Int) - (userName0.length : Int))
        let groupName :=
          groupName0 ++ get_space_chars ((maxG : Int) - (groupName0.length : Int))
        let hardLinkSize :=
          get_space_chars ((fl.maxHarLinkSize : Int) - ((get_link_count f).length : Int)) ++
            get_link_count f
        some (get_permissions_text f ++ " " ++ hardLinkSize ++ " " ++ userName ++
          " " ++ groupName ++ " " ++ fileSize ++ " " ++ get_time f fs.curYear ++
          " " ++ get_file_name fs fl f))))

/-- Source FileList.get_file_info. -/
def get_file_info (fs : Fs) (fl : FileList) (f : File) : Option String :=
  if fl.options.l then get_long_listing_format fs fl f
  else some (get_normal_format fs fl f)

/-- The output-accumulation loop of FileList.show, after the optional
size sort: long lines end in a newline, bare names in a tab, and the
final print drops the last character (Python output[:-1]). -/
def show_output (fs : Fs) (fl : FileList) : Option String :=
  (fl.files.foldlM
    (fun (output : String) f =>
      if fl.options.l then
        (get_long_listing_format fs fl f).map (fun line => output ++ line ++ "\n")
      else some (output ++ get_normal_format fs fl f ++ "\t"))
    "").map (fun out => out.dropRight 1)

/-- Source FileList.show: re-sort by size when -S is set, then emit the
accumulated output as one printed string. -/
def show_files (fs : Fs) (fl : FileList) : Option String :=
  show_output fs (if fl.options.S then sort_file_list_by_size fl else fl)

/-- Source usage(): the single printed usage line. -/
def usage : String := "usage: ls [-aFhlS] [file ...]"

/-- Source print_no_such_file_or_dir_error: one line per missing
argument, then the usage line.  Each list element is one print. -/
def print_no_such_file_or_dir_error (noFileOrDirList : List String) : List String :=
  noFileOrDirList.map (fun item => "ls: " ++ item ++ ": No such file or directory") ++
    [usage]

/-- Source get_dir_name, i.e. posixpath.dirname: take everything up to
and including the last slash, then strip trailing slashes unless the
head is empty or consists only of slashes. -/
def get_dir_name (p : String) : String :=
  match (p.data.reverse.findIdx? (fun c => c = '/')) with
  | none => ""
  | some kRev =>
    let i := p.data.length - kRev
    let head := String.mk (p.data.take i)
    if head.data.all (fun c => c = '/') then head
    else String.mk ((head.data.reverse.dropWhile (fun c => c = '/')).reverse)

/-- Source get_cwd: wraps os.getcwd. -/
def get_cwd (fs : Fs) : String := fs.cwd

/-- Source output_of_no_args: list the current working directory. -/
def output_of_no_args (fs : Fs) (options : Options) : Option (List String) :=
  (add_files_from_path fs (get_cwd fs) (FileList.init options)).bind
    (fun fl => (show_files fs fl).map (fun s => [s]))

/-- The FileList built by output_of_file_args: for each argument, the
containing directory is os.path.dirname of the argument, or the
current working directory when that is empty, and the full argument
string is passed to add_file as the name. -/
def build_file_args_list (fs : Fs) (fileArgs : List String) (options : Options) :
    Option FileList :=
  fileArgs.foldlM
    (fun fl file =>
      let path := get_dir_name file
      let path := if path = "" then get_cwd fs else path
      add_file fs path file fl)
    (FileList.init options)

/-- Source output_of_file_args: build the combined FileList of all
file arguments, then show it (one printed string). -/
def output_of_file_args (fs : Fs) (fileArgs : List String) (options : Options) :
    Option (List String) :=
  (build_file_args_list fs fileArgs options).bind
    (fun fl => (show_files fs fl).map (fun s => [s]))

/-- Source output_of_dir_args: one FileList per directory argument,
a "dir:" header when more than one file-or-directory argument was
given, and a blank printed line between consecutive directories. -/
def output_of_dir_args (fs : Fs) (options : Options) (argcnt : Nat) :
    List String → Option (List String)
  | [] => some []
  | d :: rest =>
    (add_files_from_path fs d (FileList.init options)).bind (fun dirFiles =>
      (show_files fs dirFiles).bind (fun out =>
        (output_of_dir_args fs options argcnt rest).map (fun restOut =>
          (if argcnt > 1 then [d ++ ":"] else []) ++ [out] ++
            (if rest.isEmpty then [] else [""]) ++ restOut)))

/-- The argument classification of main: os.path.isfile first, then
os.path.isdir, else the argument is reported missing. -/
def isFileArg (fs : Fs) (a : String) : Bool := fs.pathType a = PathType.file

/-- Directory classification (reached only when isfile was false). -/
def isDirArg (fs : Fs) (a : String) : Bool :=
  fs.pathType a ≠ PathType.file ∧ fs.pathType a = PathType.dir

/-- Missing classification. -/
def isMissingArg (fs : Fs) (a : String) : Bool :=
  fs.pathType a ≠ PathType.file ∧ fs.pathType a ≠ PathType.dir

/-- The file-plus-directory portion of main's output: the listings of
the file arguments (one combined FileList) followed by those of the
directory arguments, each block emitted only when its argument list is
nonempty. -/
def mainValidOutput (fs : Fs) (options : Options) (args : List String) :
    Option (List String) :=
  let fileArgs := args.filter (isFileArg fs)
  let dirArgs := args.filter (isDirArg fs)
  (if fileArgs.length > 0 then output_of_file_args fs fileArgs options
   else some []).bind (fun fOut =>
    (if dirArgs.length > 0 then
      output_of_dir_args fs options (fileArgs.length + dirArgs.length) dirArgs
     else some []).map (fun dOut => fOut ++ dOut))

/-- Source main, after getopt flag parsing (an illegal flag exits with
status 2 before this point; that branch is outside the model).  The
result is the list of printed strings paired with the process exit
status: main never calls sys.exit on the paths below, so a normal
return gives status 0. -/
def main (fs : Fs) (options : Options) (args : List String) :
    Option (List String × Nat) :=
  if args.isEmpty then
    (output_of_no_args fs options).map (fun out => (out, 0))
  else
    let noFileOrDirArgs := args.filter (isMissingArg fs)
    let errLines :=
      if noFileOrDirArgs.length > 0 then
        print_no_such_file_or_dir_error noFileOrDirArgs
      else []
    (mainValidOutput fs options args).map (fun rest => (errLines ++ rest, 0))

/-! Specification-side definitions, written from the words of the spec
for the refinement claims, to be compared with the source embedding. -/

/-- Spec: the 8-entry triplet table indexed by a 3-bit group,
000 to 111. -/
def rwxTable (bits : Nat) : String :=
  match bits with
  | 0 => "---" | 1 => "--x" | 2 => "-w-" | 3 => "-wx"
  | 4 => "r--" | 5 => "r-x" | 6 => "rw-" | 7 => "rwx"
  | _ => ""

/-- Spec: a triplet with its execute character replaced when the
special bit is set: lower-case letter when the execute bit is set,
upper-case when not. -/
def specTriplet (bits : Nat) (special exec : Prop) [Decidable special]
    [Decidable exec] (lower upper : String) : String :=
  if special then
    if exec then (rwxTable bits).take 2 ++ lower
    else (rwxTable bits).take 2 ++ upper
  else rwxTable bits

/-- Spec: permission text for a non-symlink entry of the given mode:
the kind glyph followed by the owner, group and other triplets taken
from the table with the setuid, setgid and sticky overrides. -/
def specPerm (m : Nat) (glyph : String) : String :=
  glyph ++
    specTriplet ((m >>> 6) &&& 7) (m &&& S_ISUID ≠ 0) (m &&& S_IXUSR ≠ 0) "s" "S" ++
    specTriplet ((m >>> 3) &&& 7) (m &&& S_ISGID ≠ 0) (m &&& S_IXGRP ≠ 0) "s" "S" ++
    specTriplet (m &&& 7) (m &&& S_ISVTX ≠ 0) (m &&& S_IXOTH ≠ 0) "t" "T"

/-- Spec: the K, M, G, T units with their byte thresholds, largest
first. -/
def hrUnits : List (Nat × String) :=
  [(1024 ^ 4, "T"), (1024 ^ 3, "G"), (1024 ^ 2, "M"), (1024, "K")]

/-- Spec: human-readable rendering chooses the largest unit not
exceeding the size and appends its suffix after truncating division,
or renders the raw decimal below 1024. -/
def hrSpec (s : Nat) : String :=
  match hrUnits.find? (fun u => u.1 ≤ s) with
  | some u => toString (s / u.1) ++ u.2
  | none => toString s

/-! Concrete fixtures used by counterexamples and witnesses. -/

/-- A stat record for a directory (mode 040755) whose access time is
early 2020. -/
def dirStat : PyStat :=
  { st_mode := 0o040755, st_size := 96, st_nlink := 3, st_uid := 501,
    st_gid := 20,
    st_atime := { tm_year := 2020, tm_mon := 1, tm_mday := 5,
                  tm_hour := 3, tm_min := 7 } }

/-- A stat record for a plain regular file (mode 0100644). -/
def regStat : PyStat :=
  { st_mode := 0o100644, st_size := 5, st_nlink := 1, st_uid := 501,
    st_gid := 20,
    st_atime := { tm_year := 2026, tm_mon := 9, tm_mday := 30,
                  tm_hour := 12, tm_min := 34 } }

/-- A filesystem on which every path stats as a directory and the
dedicated symlink check reports a link: the conflicting-signal case of
the kind classification. -/
def fsDirLink : Fs :=
  { stat := fun _ => dirStat, islink := fun _ => true,
    listdir := fun _ => [], userName := fun _ => some "user",
    groupName := fun _ => some "wheel", readlink := fun _ => none,
    cwd := "/home", pathType := fun _ => PathType.dir, curYear := 2026 }

/-- A filesystem of regular files with resolvable names; group name
wheel has five characters. -/
def fsPlain : Fs :=
  { stat := fun _ => regStat, islink := fun _ => false,
    listdir := fun _ => [], userName := fun _ => some "user",
    groupName := fun _ => some "wheel", readlink := fun _ => none,
    cwd := "/home", pathType := fun _ => PathType.file, curYear := 2026 }

/-- A filesystem whose user-name database is empty: every uid lookup
raises KeyError. -/
def fsNoUser : Fs :=
  { fsPlain with userName := fun _ => none }

/-- A filesystem where path ghost does not exist and nothing else is
consulted. -/
def fsGhost : Fs :=
  { fsPlain with pathType := fun _ => PathType.missing }

/-- A filesystem distinguishing the path d/f (size 5) from the
doubled path d/d/f (size 7) that the file-argument plumbing actually
stats. -/
def fsDouble : Fs :=
  { fsPlain with
    stat := fun p =>
      if p = "d/f" then regStat
      else if p = "d/d/f" then { regStat with st_size := 7 }
      else { regStat with st_size := 0 } }

/-- A filesystem whose directories all list the single name b. -/
def fsList : Fs := { fsPlain with listdir := fun _ => ["b"] }

/-- An entry whose access time (2020) is more than one year older than
the current year 2026 of its filesystem. -/
def exOldFile : File := File.init fsDirLink "x" "/"

/-- An entry with a recent (2026) access time. -/
def exRecentFile : File := File.init fsPlain "x" "/"

/-- A second recent entry of the same size with a later name. -/
def exFileB : File := File.init fsPlain "b" "/"

/-- An entry on the filesystem without password entries. -/
def exNoUserFile : File := File.init fsNoUser "x" "/"

/-- The listing obtained by adding one file to a fresh FileList on the
plain filesystem. -/
def flAfterAdd : FileList :=
  (add_file fsPlain "/" "x" (FileList.init defaultOptions)).getD
    (FileList.init defaultOptions)

/-- Options with only -S set. -/
def optS : Options := { defaultOptions with S := true }

/-- A listing in -S mode holding two equal-size entries in name order. -/
def flTwoS : FileList :=
  { FileList.init optS with files := [exFileB, exRecentFile] }

/-- The listing built by add_files_from_path on the directory whose
enumeration is b, a. -/
def flDirWit : FileList :=
  (add_files_from_path fsList "/" (FileList.init defaultOptions)).getD
    (FileList.init defaultOptions)

/-- The listing built from the single explicit file argument d/f. -/
def flDoubleWit : FileList :=
  (build_file_args_list fsDouble ["d/f"] defaultOptions).getD
    (FileList.init defaultOptions)

/-- A listing holding an entry whose uid has no password entry. -/
def flNoUserWit : FileList :=
  { FileList.init defaultOptions with files := [exNoUserFile] }

/-- The result of running the group-width tracker once more on
flAfterAdd. -/
def flGroupSet : FileList :=
  (set_max_group_name_size fsPlain flAfterAdd).getD flAfterAdd

/-- A filesystem whose group database is empty: every gid lookup
raises KeyError. -/
def fsNoGroup : Fs := { fsPlain with groupName := fun _ => none }

/-- An entry on the filesystem without group entries. -/
def exNoGroupFile : File := File.init fsNoGroup "x" "/"

/-- A listing holding an entry whose gid has no group entry. -/
def flNoGroupWit : FileList :=
  { FileList.init defaultOptions with files := [exNoGroupFile] }

/-! Helper lemmas: decimal length bounds for Nat.repr. -/

theorem toDigitsCore_append_len (f n : Nat) (acc : List Char) :
    (Nat.toDigitsCore 10 f n acc).length =
      (Nat.toDigitsCore 10 f n []).length + acc.length := by
  induction acc with
  | nil => rfl
  | cons c tl ih =>
    rw [Nat.toDigitsCore_lens_eq, ih, List.length_cons]
    omega

theorem toDigitsCore_len_lower :
    ∀ (e n f : Nat), 10 ^ e ≤ n → n < f →
      e + 1 ≤ (Nat.toDigitsCore 10 f n []).length := by
  intro e
  induction e with
  | zero =>
    intro n f h hf
    match f, hf with
    | f + 1, _ =>
      simp only [Nat.toDigitsCore]
      by_cases h10 : n / 10 = 0
      · simp [h10]
      · simp only [h10, if_false]
        rw [Nat.toDigitsCore_lens_eq]
        omega
  | succ e ih =>
    intro n f h hf
    have hpow : 0 < 10 ^ e := Nat.pos_pow_of_pos e (by norm_num)
    have hn10 : 10 ^ e ≤ n / 10 := by
      rw [Nat.le_div_iff_mul_le (by norm_num)]
      calc 10 ^ e * 10 = 10 ^ (e + 1) := by rw [pow_succ]
        _ ≤ n := h
    have hten : 10 ≤ n := by
      have : 10 ^ 1 ≤ 10 ^ (e + 1) := Nat.pow_le_pow_right (by norm_num) (by omega)
      simpa using le_trans this h
    match f, hf with
    | f + 1, hf =>
      simp only [Nat.toDigitsCore]
      have h10 : ¬ n / 10 = 0 := by omega
      simp only [h10, if_false]
      rw [Nat.toDigitsCore_lens_eq]
      have hdiv : n / 10 < f := by
        have h1 : n / 10 < n := Nat.div_lt_self (by omega) (by norm_num)
        omega
      have := ih (n / 10) f hn10 hdiv
      omega

theorem repr_len_lower (e n : Nat) (h : 10 ^ e ≤ n) :
    e + 1 ≤ (Nat.repr n).length := by
  have := toDigitsCore_len_lower e n (n + 1) h (Nat.lt_succ_self n)
  simpa [Nat.repr, Nat.toDigits, String.length, List.asString] using this

theorem repr_div_len (s D : Nat) (hD : 1000 ≤ D) (hs : D ≤ s) :
    (Nat.repr (s / D)).length + 1 ≤ (Nat.repr s).length := by
  have hq1 : 1 ≤ s / D := (Nat.one_le_div_iff (by omega)).mpr hs
  have he1 : 1 ≤ (Nat.repr (s / D)).length := by
    have := repr_len_lower 0 (s / D) (by simpa using hq1)
    omega
  have hqlow : 10 ^ ((Nat.repr (s / D)).length - 1) ≤ s / D := by
    by_contra hcon
    push_neg at hcon
    rcases Nat.eq_or_lt_of_le he1 with h1 | h2
    · rw [← h1] at hcon
      simp at hcon
      omega
    · have := Nat.repr_length (s / D) ((Nat.repr (s / D)).length - 1) (by omega) hcon
      omega
  have hsq : D * (s / D) ≤ s := Nat.mul_div_le s D
  have hbig : 10 ^ ((Nat.repr (s / D)).length + 2) ≤ s := by
    calc 10 ^ ((Nat.repr (s / D)).length + 2)
        = 10 ^ ((Nat.repr (s / D)).length - 1) * 10 ^ 3 := by
          rw [← pow_add]; congr 1; omega
      _ ≤ (s / D) * D := Nat.mul_le_mul hqlow (by omega)
      _ = D * (s / D) := Nat.mul_comm _ _
      _ ≤ s := hsq
  have := repr_len_lower ((Nat.repr (s / D)).length + 2) s hbig
  omega

/-! Helper lemmas: the max-length loops and the set_max / add plumbing. -/

theorem foldl_max_le_acc (getter : File → String) :
    ∀ (files : List File) (init : Nat),
      init ≤ files.foldl
        (fun m f => if (getter f).length > m then (getter f).length else m) init := by
  intro files
  induction files with
  | nil => intro init; exact le_refl _
  | cons x xs ih =>
    intro init
    refine le_trans ?_ (ih _)
    by_cases h : (getter x).length > init <;> simp [h] <;> omega

theorem max_len_total_le (getter : File → String) :
    ∀ (files : List File) (f : File), f ∈ files →
      (getter f).length ≤ max_len_total getter files := by
  have step : ∀ (files : List File) (init : Nat) (f : File), f ∈ files →
      (getter f).length ≤ files.foldl
        (fun m g => if (getter g).length > m then (getter g).length else m) init := by
    intro files
    induction files with
    | nil => intro init f hf; cases hf
    | cons x xs ih =>
      intro init f hf
      rcases List.mem_cons.mp hf with rfl | hmem
      · refine le_trans ?_ (foldl_max_le_acc getter xs _)
        by_cases h : (getter f).length > init <;> simp [h] <;> omega
      · exact ih _ f hmem
  intro files f hf
  exact step files 0 f hf

theorem max_len_over_eq_none (fs : Fs) (getter : Fs → File → Option String)
    (files : List File) (f : File) (hf : f ∈ files)
    (hnone : getter fs f = none) :
    max_len_over fs getter files = none := by
  unfold max_len_over
  have step : ∀ (xs : List File) (init : Nat), f ∈ xs →
      List.foldlM (m := Option)
        (fun m g => (getter fs g).map (fun s => if s.length > m then s.length else m))
        init xs = none := by
    intro xs
    induction xs with
    | nil => intro init hmem; cases hmem
    | cons x tl ih =>
      intro init hmem
      rcases List.mem_cons.mp hmem with rfl | hmem'
      · simp [List.foldlM, hnone]
      · simp only [List.foldlM]
        cases hx : (getter fs x).map
            (fun s => if s.length > init then s.length else init) with
        | none => rfl
        | some b => simpa [hx] using ih b hmem'
  exact step files 0 hf

theorem set_maximums_spec (fs : Fs) (fl fl' : FileList)
    (h : set_maximums fs fl = some fl') :
    fl'.files = fl.files ∧
    fl'.options = fl.options ∧
    fl'.maxFileSize = max_len_total get_size_str fl.files ∧
    fl'.maxGrpNameSize = fl.maxGrpNameSize ∧
    (∃ m, max_len_over fs get_group_name fl.files = some m ∧
      fl'.maxGroupNameSize = some m) := by
  unfold set_maximums set_max_user_name_size set_max_group_name_size at h
  rcases Option.bind_eq_some.mp h with ⟨a, ha, hrest⟩
  rcases Option.map_eq_some'.mp ha with ⟨mu, hmu, rfl⟩
  rcases Option.map_eq_some'.mp hrest with ⟨b, hb, rfl⟩
  rcases Option.map_eq_some'.mp hb with ⟨mg, hmg, rfl⟩
  refine ⟨rfl, rfl, rfl, rfl, mg, ?_, rfl⟩
  simpa [set_max_file_size] using hmg

theorem add_file_spec (fs : Fs) (path name : String) (fl fl' : FileList)
    (h : add_file fs path name fl = some fl') :
    path ≠ "" ∧
    fl'.files =
      (fl.files ++ [File.init fs name (ensure_trailing_slash path)]).insertionSort nameLe ∧
    fl'.options = fl.options ∧
    fl'.maxFileSize =
      max_len_total get_size_str
        (fl.files ++ [File.init fs name (ensure_trailing_slash path)]) ∧
    fl'.maxGrpNameSize = fl.maxGrpNameSize ∧
    (∃ m, fl'.maxGroupNameSize = some m) := by
  unfold add_file at h
  by_cases hp : path = ""
  · simp [hp] at h
  · simp only [hp, if_false] at h
    rcases Option.map_eq_some'.mp h with ⟨fl3, h3, rfl⟩
    rcases set_maximums_spec fs _ fl3 h3 with ⟨hfiles, hopts, hsize, hgrp, m, _, hgn⟩
    exact ⟨hp, by simp [sort_file_list_by_name, hfiles], by simpa [sort_file_list_by_name] using hopts,
      by simpa [sort_file_list_by_name] using hsize,
      by simpa [sort_file_list_by_name] using hgrp,
      m, by simpa [sort_file_list_by_name] using hgn⟩

theorem add_files_from_path_files (fs : Fs) (path : String) (fl fl' : FileList)
    (h : add_files_from_path fs path fl = some fl') :
    ∃ l : List File, fl'.files = l.insertionSort nameLe := by
  unfold add_files_from_path at h
  by_cases hp : path = ""
  · simp [hp] at h
  · simp only [hp, if_false] at h
    rcases Option.map_eq_some'.mp h with ⟨fl3, h3, rfl⟩
    rcases set_maximums_spec fs _ fl3 h3 with ⟨hfiles, -⟩
    exact ⟨fl3.files, by simp [sort_file_list_by_name]⟩

/-! Claim theorems. -/

/-- Claim C1, counterexample: an entry whose path the dedicated
symlink check reports as a link, but whose stat metadata classifies as
a directory, gets kind d, not l: the directory test runs before both
symlink tests in File.get_type, so symlink detection does not take
precedence over the directory classification. -/
theorem c1_counterexample :
    exOldFile.islink = true ∧ S_ISDIR exOldFile.stat.st_mode = true ∧
      exOldFile.type = "d" ∧ exOldFile.type ≠ "l" := by decide

/-- Claim C1 as amended: when the dedicated symlink check reports a
link and the stat mode does not classify the path as a directory, the
kind is l, whatever the remaining mode bits say; only the directory
classification precedes the link detection. -/
theorem c1_symlink_after_dir (st : PyStat) (islinkRes : Bool)
    (hl : islinkRes = true) (hd : S_ISDIR st.st_mode = false) :
    get_type st islinkRes = "l" := by
  unfold get_type
  rw [hd, hl]
  by_cases hlnk : S_ISLNK st.st_mode <;> simp [hlnk]

/-- Witness for c1_symlink_after_dir at a regular-file mode. -/
theorem c1_witness : get_type regStat true = "l" :=
  c1_symlink_after_dir regStat true rfl (by decide)

/-- Claim C2, counterexample: an entry accessed in 2020 listed in 2026
is more than one year old, yet File.get_time renders it in the month
day clock form, not the month day year form the claim requires: the
branch is inverted. -/
theorem c2_counterexample :
    exOldFile.stat.st_atime.tm_year < 2026 - 1 ∧
      get_time exOldFile 2026 = "Jan 05 03:07" ∧
      get_time exOldFile 2026 = strftime_bdHM exOldFile.stat.st_atime ∧
      get_time exOldFile 2026 ≠ strftime_bdY exOldFile.stat.st_atime := by decide

/-- Claim C2 as amended: the branch of File.get_time is the reverse of
the claim: an access time more than one year older than the current
year (by calendar-year comparison) renders as month day clock, and
every other access time renders as month day year. -/
theorem c2_time_branch (f : File) (curYear : Nat) :
    (f.stat.st_atime.tm_year < curYear - 1 →
      get_time f curYear = strftime_bdHM f.stat.st_atime) ∧
    (¬ f.stat.st_atime.tm_year < curYear - 1 →
      get_time f curYear = strftime_bdY f.stat.st_atime) := by
  constructor <;> intro h <;> simp [get_time, h]

/-- Witness for c2_time_branch: both branches at concrete entries. -/
theorem c2_witness :
    get_time exOldFile 2026 = strftime_bdHM exOldFile.stat.st_atime ∧
    get_time exRecentFile 2026 = strftime_bdY exRecentFile.stat.st_atime :=
  ⟨(c2_time_branch exOldFile 2026).1 (by decide),
   (c2_time_branch exRecentFile 2026).2 (by decide)⟩

/-- Claim C3, counterexample: after one add on a listing whose group
names resolve to wheel, the group-width attribute that long-format
rendering reads (maxGroupNameSize, the one assigned by
set_max_group_name_size) holds 5, not its claimed frozen value 0; the
differently-named field is the dead constructor field maxGrpNameSize. -/
theorem c3_counterexample :
    (add_file fsPlain "/" "x" (FileList.init defaultOptions)).map
      (fun fl => fl.maxGroupNameSize) = some (some 5) ∧
    (FileList.init defaultOptions).maxGrpNameSize = 0 ∧ (5 : Nat) ≠ 0 := by decide

/-- Claim C3 as amended: the tracker set_max_group_name_size and the
long-format renderer agree on the attribute maxGroupNameSize, which is
recomputed on every successful add; the misnamed field is the one the
constructor initialises to zero, maxGrpNameSize, which rendering never
reads (first conjunct: the tracker writes the computed maximum into
the attribute rendering reads; second: rendering is unchanged by any
value of the constructor field; third: every successful add leaves the
constructor field untouched and assigns the attribute). -/
theorem c3_group_width_fields :
    (∀ (fs : Fs) (fl fl' : FileList),
      set_max_group_name_size fs fl = some fl' →
        fl'.maxGroupNameSize = max_len_over fs get_group_name fl.files) ∧
    (∀ (fs : Fs) (fl : FileList) (f : File) (w : Nat),
      get_long_listing_format fs { fl with maxGrpNameSize := w } f =
        get_long_listing_format fs fl f) ∧
    (∀ (fs : Fs) (path name : String) (fl fl' : FileList),
      add_file fs path name fl = some fl' →
        fl'.maxGrpNameSize = fl.maxGrpNameSize ∧ ∃ m, fl'.maxGroupNameSize = some m) := by
  refine ⟨?_, ?_, ?_⟩
  · intro fs fl fl' h
    unfold set_max_group_name_size at h
    rcases Option.map_eq_some'.mp h with ⟨m, hm, rfl⟩
    simp [hm]
  · intro fs fl f w
    rfl
  · intro fs path name fl fl' h
    rcases add_file_spec fs path name fl fl' h with ⟨-, -, -, -, hgrp, hm⟩
    exact ⟨hgrp, hm⟩

/-- Witness for c3_group_width_fields at concrete inputs. -/
theorem c3_witness :
    flGroupSet.maxGroupNameSize = max_len_over fsPlain get_group_name flAfterAdd.files ∧
    get_long_listing_format fsPlain { flAfterAdd with maxGrpNameSize := 99 } exRecentFile =
      get_long_listing_format fsPlain flAfterAdd exRecentFile ∧
    flAfterAdd.maxGrpNameSize = (FileList.init defaultOptions).maxGrpNameSize ∧
    (∃ m, flAfterAdd.maxGroupNameSize = some m) :=
  ⟨c3_group_width_fields.1 fsPlain flAfterAdd flGroupSet (by decide),
   c3_group_width_fields.2.1 fsPlain flAfterAdd exRecentFile 99,
   (c3_group_width_fields.2.2 fsPlain "/" "x" (FileList.init defaultOptions)
      flAfterAdd (by decide)).1,
   (c3_group_width_fields.2.2 fsPlain "/" "x" (FileList.init defaultOptions)
      flAfterAdd (by decide)).2⟩

/-- Claim C4, counterexample: a single nonexistent argument produces
exactly the per-argument error line and the usage line, but the
process exit status is 0, not the claimed nonzero: main returns
normally after reporting, and only the illegal-option path calls
sys.exit. -/
theorem c4_counterexample :
    main fsGhost defaultOptions ["ghost"] =
      some (["ls: ghost: No such file or directory",
             "usage: ls [-aFhlS] [file ...]"], 0) ∧
    (main fsGhost defaultOptions ["ghost"]).map Prod.snd = some 0 := by decide

/-- Claim C4 as amended: with at least one argument, main prints one
No-such-file line per nonexistent argument followed by one usage line
(nothing when none is missing), continues with the file and directory
arguments exactly as if the missing ones had not been supplied, and
exits with status 0 (not nonzero). -/
theorem c4_missing_args_report (fs : Fs) (options : Options)
    (args rest : List String) (hne : args ≠ [])
    (hrest : mainValidOutput fs options args = some rest) :
    main fs options args =
      some ((if (args.filter (isMissingArg fs)).length > 0 then
          print_no_such_file_or_dir_error (args.filter (isMissingArg fs))
        else []) ++ rest, 0) ∧
    mainValidOutput fs options args =
      mainValidOutput fs options
        (args.filter (fun a => isFileArg fs a || isDirArg fs a)) := by
  constructor
  · unfold main
    rw [if_neg (by simpa [List.isEmpty_iff] using hne), hrest]
    rfl
  · have hfile :
        (args.filter (fun a => isFileArg fs a || isDirArg fs a)).filter (isFileArg fs) =
          args.filter (isFileArg fs) := by
      rw [List.filter_filter]
      refine List.filter_congr (fun a _ => ?_)
      cases hpt : fs.pathType a <;> simp [isFileArg, isDirArg, hpt]
    have hdir :
        (args.filter (fun a => isFileArg fs a || isDirArg fs a)).filter (isDirArg fs) =
          args.filter (isDirArg fs) := by
      rw [List.filter_filter]
      refine List.filter_congr (fun a _ => ?_)
      cases hpt : fs.pathType a <;> simp [isFileArg, isDirArg, hpt]
    unfold mainValidOutput
    rw [hfile, hdir]

/-- Witness for c4_missing_args_report: one missing argument alone. -/
theorem c4_witness :
    main fsGhost defaultOptions ["ghost"] =
      some ((if ((["ghost"]).filter (isMissingArg fsGhost)).length > 0 then
          print_no_such_file_or_dir_error ((["ghost"]).filter (isMissingArg fsGhost))
        else []) ++ [], 0) ∧
    mainValidOutput fsGhost defaultOptions ["ghost"] =
      mainValidOutput fsGhost defaultOptions
        ((["ghost"]).filter (fun a => isFileArg fsGhost a || isDirArg fsGhost a)) :=
  c4_missing_args_report fsGhost defaultOptions ["ghost"] [] (by decide) (by decide)

/-- Claim C5, counterexample: when a uid has no name, get_user_name
yields None rather than the empty string, and adding such a file
aborts the run (the width tracker calls len on the None): the listing
does not keep rendering. -/
theorem c5_counterexample :
    get_user_name fsNoUser exNoUserFile = none ∧
    get_user_name fsNoUser exNoUserFile ≠ some "" ∧
    add_file fsNoUser "/" "x" (FileList.init defaultOptions) = none := by decide

/-- Claim C5 as amended: a failed uid or gid lookup is fatal, not
rendered as an empty string: the resolver returns None after printing
the exception message, and both the column-width pass and long-format
rendering then raise an uncaught TypeError (modelled none), aborting
the run. -/
theorem c5_name_resolution_fatal (fs : Fs) (fl : FileList) (f : File)
    (hf : f ∈ fl.files) :
    (get_user_name fs f = none →
      set_max_user_name_size fs fl = none ∧
      get_long_listing_format fs fl f = none) ∧
    (get_group_name fs f = none → set_max_group_name_size fs fl = none) := by
  constructor
  · intro h
    constructor
    · unfold set_max_user_name_size
      rw [max_len_over_eq_none fs get_user_name fl.files f hf h]
      rfl
    · simp [get_long_listing_format, h]
  · intro h
    unfold set_max_group_name_size
    rw [max_len_over_eq_none fs get_group_name fl.files f hf h]
    rfl

/-- Witness for c5_name_resolution_fatal at concrete inputs. -/
theorem c5_witness :
    (set_max_user_name_size fsNoUser flNoUserWit = none ∧
      get_long_listing_format fsNoUser flNoUserWit exNoUserFile = none) ∧
    set_max_group_name_size fsNoGroup flNoGroupWit = none :=
  ⟨(c5_name_resolution_fatal fsNoUser flNoUserWit exNoUserFile (by decide)).1 rfl,
   (c5_name_resolution_fatal fsNoGroup flNoGroupWit exNoGroupFile (by decide)).2 rfl⟩

/-- Claim C6, counterexample: for the explicit file argument d/f the
entry's metadata is fetched from d/d/f (the containing directory d
joined with the full argument string), not from the argument's own
path d/f: the sizes differ on a filesystem distinguishing the two. -/
theorem c6_counterexample :
    (build_file_args_list fsDouble ["d/f"] defaultOptions).map
      (fun fl => fl.files.map (fun f => f.stat.st_size)) = some [7] ∧
    (fsDouble.stat "d/f").st_size = 5 ∧ get_dir_name "d/f" = "d" := by decide

/-- Claim C6 as amended: the entry built for an explicit file argument
stats the containing directory (dirname of the argument, or the
current working directory when that is empty) with a trailing slash,
concatenated with the whole argument string, not with its base name;
this equals the argument's own path only when the argument has no
directory part. -/
theorem c6_file_arg_stat_path (fs : Fs) (options : Options) (arg : String)
    (fl' : FileList)
    (h : build_file_args_list fs [arg] options = some fl') :
    fl'.files.map (fun f => f.stat) =
      [fs.stat (ensure_trailing_slash
        (if get_dir_name arg = "" then get_cwd fs else get_dir_name arg) ++ arg)] := by
  unfold build_file_args_list at h
  simp only [List.foldlM, bind, Option.bind_eq_some, Option.pure_def,
    Option.some.injEq] at h
  rcases h with ⟨fl1, h1, rfl⟩
  rcases add_file_spec fs _ arg (FileList.init options) fl1 h1 with ⟨-, hfiles, -⟩
  rw [hfiles]
  simp [FileList.init, List.insertionSort, List.orderedInsert, File.init]

/-- Witness for c6_file_arg_stat_path at the argument d/f. -/
theorem c6_witness :
    flDoubleWit.files.map (fun f => f.stat) =
      [fsDouble.stat (ensure_trailing_slash
        (if get_dir_name "d/f" = "" then get_cwd fsDouble else get_dir_name "d/f") ++
          "d/f")] :=
  c6_file_arg_stat_path fsDouble defaultOptions "d/f" flDoubleWit (by decide)

/-- Claim C7, confirmed: both add operations leave the file list
sorted ascending by name (Python list.sort with the name key, a stable
sort, run after every append); when -S is set, FileList.show re-sorts
as a final pass by descending raw size with a stable sort, so any two
entries of equal size keep their prior name-ascending relative order
(the pair-sublist conjunct), and rendering consumes exactly that
re-sorted list. -/
theorem c7_sort_behavior :
    (∀ (fs : Fs) (path name : String) (fl fl' : FileList),
      add_file fs path name fl = some fl' → fl'.files.Sorted nameLe) ∧
    (∀ (fs : Fs) (path : String) (fl fl' : FileList),
      add_files_from_path fs path fl = some fl' → fl'.files.Sorted nameLe) ∧
    (∀ fl : FileList, (sort_file_list_by_size fl).files.Sorted sizeGe) ∧
    (∀ (fl : FileList) (a b : File), [a, b].Sublist fl.files →
      a.stat.st_size = b.stat.st_size →
      [a, b].Sublist (sort_file_list_by_size fl).files) ∧
    (∀ (fs : Fs) (fl : FileList), fl.options.S = true →
      show_files fs fl = show_output fs (sort_file_list_by_size fl)) := by
  refine ⟨?_, ?_, ?_, ?_, ?_⟩
  · intro fs path name fl fl' h
    rcases add_file_spec fs path name fl fl' h with ⟨-, hfiles, -⟩
    rw [hfiles]
    exact List.sorted_insertionSort nameLe _
  · intro fs path fl fl' h
    rcases add_files_from_path_files fs path fl fl' h with ⟨l, hfiles⟩
    rw [hfiles]
    exact List.sorted_insertionSort nameLe _
  · intro fl
    exact List.sorted_insertionSort sizeGe _
  · intro fl a b hsub hsize
    exact List.pair_sublist_insertionSort (le_of_eq hsize.symm) hsub
  · intro fs fl h
    simp [show_files, h]

/-- Witness for c7_sort_behavior at concrete listings. -/
theorem c7_witness :
    flAfterAdd.files.Sorted nameLe ∧
    flDirWit.files.Sorted nameLe ∧
    (sort_file_list_by_size flTwoS).files.Sorted sizeGe ∧
    [exFileB, exRecentFile].Sublist (sort_file_list_by_size flTwoS).files ∧
    show_files fsPlain flTwoS = show_output fsPlain (sort_file_list_by_size flTwoS) :=
  ⟨c7_sort_behavior.1 fsPlain "/" "x" (FileList.init defaultOptions) flAfterAdd
      (by decide),
   c7_sort_behavior.2.1 fsList "/" (FileList.init defaultOptions) flDirWit (by decide),
   c7_sort_behavior.2.2.1 flTwoS,
   c7_sort_behavior.2.2.2.1 flTwoS exFileB exRecentFile (List.Sublist.refl _)
      (by decide),
   c7_sort_behavior.2.2.2.2 fsPlain flTwoS (by decide)⟩

/-- Claim C8, confirmed: the human-readable rendering equals the
spec-side rendering that picks the largest of the four binary units
not exceeding the size and truncating-divides by it (raw decimal below
1024), and the two boundary values render as 1023 and 1K. -/
theorem c8_human_readable :
    (∀ s : Nat, get_human_readable_size s = hrSpec s) ∧
    get_human_readable_size 1023 = "1023" ∧
    get_human_readable_size 1024 = "1K" := by
  refine ⟨?_, by decide, by decide⟩
  intro s
  have e2 : (1024 : Nat) ^ 2 = 1024 * 1024 := by norm_num
  have e3 : (1024 : Nat) ^ 3 = 1024 * 1024 * 1024 := by ring
  have e4 : (1024 : Nat) ^ 4 = 1024 * 1024 * 1024 * 1024 := by ring
  simp only [get_human_readable_size, hrSpec, hrUnits, List.find?, e2, e3, e4]
  by_cases h1 : s < 1024
  · have n1 : ¬ 1024 ≤ s := by omega
    have n2 : ¬ 1024 * 1024 ≤ s := by omega
    have n3 : ¬ 1024 * 1024 * 1024 ≤ s := by omega
    have n4 : ¬ 1024 * 1024 * 1024 * 1024 ≤ s := by omega
    simp [h1, n1, n2, n3, n4]
  · by_cases h2 : s < 1024 * 1024
    · have n2 : ¬ 1024 * 1024 ≤ s := by omega
      have n3 : ¬ 1024 * 1024 * 1024 ≤ s := by omega
      have n4 : ¬ 1024 * 1024 * 1024 * 1024 ≤ s := by omega
      have y1 : 1024 ≤ s := by omega
      simp [h1, h2, n2, n3, n4, y1]
    · by_cases h3 : s < 1024 * 1024 * 1024
      · have n3 : ¬ 1024 * 1024 * 1024 ≤ s := by omega
        have n4 : ¬ 1024 * 1024 * 1024 * 1024 ≤ s := by omega
        have y2 : 1024 * 1024 ≤ s := by omega
        simp [h1, h2, h3, n3, n4, y2]
      · by_cases h4 : s < 1024 * 1024 * 1024 * 1024
        · have n4 : ¬ 1024 * 1024 * 1024 * 1024 ≤ s := by omega
          have y3 : 1024 * 1024 * 1024 ≤ s := by omega
          simp [h1, h2, h3, h4, n4, y3]
        · have y4 : 1024 * 1024 * 1024 * 1024 ≤ s := by omega
          simp [h1, h2, h3, h4, y4]

theorem rwx_getD_eq (a : Nat) (h : a ≤ 7) :
    (["---", "--x", "-w-", "-wx", "r--", "r-x", "rw-", "rwx"].getD a "") =
      rwxTable a := by
  interval_cases a <;> rfl

theorem rwx_len (a : Nat) (h : a ≤ 7) : (rwxTable a).length = 3 := by
  interval_cases a <;> rfl

theorem rwx_take2_len (a : Nat) (h : a ≤ 7) : ((rwxTable a).take 2).length = 2 := by
  interval_cases a <;> rfl

theorem specTriplet_len (a : Nat) (h : a ≤ 7) (sp ex : Prop) [Decidable sp]
    [Decidable ex] (lo up : String) (hlo : lo.length = 1) (hup : up.length = 1) :
    (specTriplet a sp ex lo up).length = 3 := by
  unfold specTriplet
  split_ifs with h1 h2
  · rw [String.length_append, rwx_take2_len a h, hlo]
  · rw [String.length_append, rwx_take2_len a h, hup]
  · exact rwx_len a h

theorem get_type_len (st : PyStat) (b : Bool) : (get_type st b).length = 1 := by
  unfold get_type
  split_ifs <;> rfl

/-- Claim C9, confirmed: for an entry classified at construction, the
permission string is the fixed ten-character literal for symlinks, and
otherwise the entry's kind glyph followed by the three table triplets
of the mode's owner, group and other 3-bit groups with the setuid,
setgid and sticky execute-character overrides, ten characters in all. -/
theorem c9_permissions (f : File) (hty : f.type = get_type f.stat f.islink) :
    (get_permissions_text f).length = 10 ∧
    (f.type = "l" → get_permissions_text f = "lrwxrwxrwx") ∧
    (f.type ≠ "l" → get_permissions_text f = specPerm f.stat.st_mode f.type) := by
  have h6 : (f.stat.st_mode >>> 6) &&& 7 ≤ 7 := Nat.and_le_right
  have h3 : (f.stat.st_mode >>> 3) &&& 7 ≤ 7 := Nat.and_le_right
  have h0 : f.stat.st_mode &&& 7 ≤ 7 := Nat.and_le_right
  by_cases hl : f.type = "l"
  · have heq : get_permissions_text f = "lrwxrwxrwx" := by
      unfold get_permissions_text
      rw [if_pos hl]
    refine ⟨by rw [heq]; rfl, fun _ => heq, fun hne => absurd hl hne⟩
  · have hl' : ¬ get_type f.stat f.islink = "l" := by
      rw [← hty]; exact hl
    have heq : get_permissions_text f = specPerm f.stat.st_mode f.type := by
      simp only [get_permissions_text, if_neg hl, specPerm, specTriplet, hty,
        rwx_getD_eq _ h6, rwx_getD_eq _ h3, rwx_getD_eq _ h0]
      rw [if_neg hl']
    refine ⟨?_, fun hcon => absurd hcon hl, fun _ => heq⟩
    rw [heq]
    unfold specPerm
    rw [String.length_append, String.length_append, String.length_append,
      specTriplet_len _ h6 _ _ "s" "S" rfl rfl,
      specTriplet_len _ h3 _ _ "s" "S" rfl rfl,
      specTriplet_len _ h0 _ _ "t" "T" rfl rfl, hty, get_type_len]

/-- Witness for c9_permissions at a constructed entry. -/
theorem c9_witness :
    (get_permissions_text exRecentFile).length = 10 ∧
    (exRecentFile.type = "l" → get_permissions_text exRecentFile = "lrwxrwxrwx") ∧
    (exRecentFile.type ≠ "l" →
      get_permissions_text exRecentFile =
        specPerm exRecentFile.stat.st_mode exRecentFile.type) :=
  c9_permissions exRecentFile rfl

theorem hr_len_le (s : Nat) :
    (get_human_readable_size s).length ≤ (toString s).length := by
  have hs : (toString s) = Nat.repr s := rfl
  simp only [get_human_readable_size]
  split_ifs with h1 h2 h3 h4
  · exact le_refl _
  · rw [String.length_append]
    have h : (Nat.repr (s / 1024)).length + 1 ≤ (Nat.repr s).length :=
      repr_div_len s 1024 (by norm_num) (by omega)
    have hK : ("K" : String).length = 1 := rfl
    rw [hK, hs]
    exact h
  · rw [String.length_append]
    have h : (Nat.repr (s / (1024 * 1024))).length + 1 ≤ (Nat.repr s).length :=
      repr_div_len s (1024 * 1024) (by norm_num) (by omega)
    have hM : ("M" : String).length = 1 := rfl
    rw [hM, hs]
    exact h
  · rw [String.length_append]
    have h : (Nat.repr (s / (1024 * 1024 * 1024))).length + 1 ≤ (Nat.repr s).length :=
      repr_div_len s (1024 * 1024 * 1024) (by norm_num) (by omega)
    have hG : ("G" : String).length = 1 := rfl
    rw [hG, hs]
    exact h
  · rw [String.length_append]
    have h : (Nat.repr (s / (1024 * 1024 * 1024 * 1024))).length + 1 ≤
        (Nat.repr s).length :=
      repr_div_len s (1024 * 1024 * 1024 * 1024) (by norm_num) (by omega)
    have hT : ("T" : String).length = 1 := rfl
    rw [hT, hs]
    exact h

/-- Claim C10, confirmed: the human-readable string never exceeds the
raw decimal string in length; hence after any successful add, the
size-field padding count (the shared raw-size column width minus the
displayed size length, raw or human-readable according to -h) is
nonnegative for every entry of the listing; and the padding helper
returns the empty string for every count below one. -/
theorem c10_size_padding :
    (∀ s : Nat, (get_human_readable_size s).length ≤ (toString s).length) ∧
    (∀ (fs : Fs) (path name : String) (fl fl' : FileList),
      add_file fs path name fl = some fl' →
      ∀ f ∈ fl'.files,
        0 ≤ (fl'.maxFileSize : Int) -
          ((if fl'.options.h = true then get_human_readable_size f.stat.st_size
            else get_size_str f).length : Int)) ∧
    (∀ n : Int, n < 1 → get_space_chars n = "") := by
  refine ⟨hr_len_le, ?_, ?_⟩
  · intro fs path name fl fl' h f hf
    rcases add_file_spec fs path name fl fl' h with ⟨-, hfiles, -, hsize, -, -⟩
    have hmem : f ∈ fl.files ++ [File.init fs name (ensure_trailing_slash path)] := by
      rw [hfiles] at hf
      exact (List.mem_insertionSort nameLe).mp hf
    have hraw : (get_size_str f).length ≤ fl'.maxFileSize := by
      rw [hsize]
      exact max_len_total_le get_size_str _ f hmem
    have hdisp :
        (if fl'.options.h = true then get_human_readable_size f.stat.st_size
          else get_size_str f).length ≤ fl'.maxFileSize := by
      split_ifs with hh
      · exact le_trans (hr_len_le f.stat.st_size) hraw
      · exact hraw
    have : ((if fl'.options.h = true then get_human_readable_size f.stat.st_size
        else get_size_str f).length : Int) ≤ (fl'.maxFileSize : Int) := by
      exact_mod_cast hdisp
    omega
  · intro n hn
    unfold get_space_chars
    rw [if_pos hn]

/-- Witness for c10_size_padding at a concrete listing and count. -/
theorem c10_witness :
    0 ≤ (flAfterAdd.maxFileSize : Int) -
      ((if flAfterAdd.options.h = true then
          get_human_readable_size exRecentFile.stat.st_size
        else get_size_str exRecentFile).length : Int) ∧
    get_space_chars (-3) = "" :=
  ⟨c10_size_padding.2.1 fsPlain "/" "x" (FileList.init defaultOptions) flAfterAdd
      (by decide) exRecentFile (by decide),
   c10_size_padding.2.2 (-3) (by decide)⟩

end Ls
